import Mathlib

/-!
# Grok provider of the walker AI module

A shallow embedding of `internal/modules/ai/providers/grok.go`:
`NewGrokProvider`, `GrokProvider.SetupData` and `GrokProvider.Query`.

Conventions of the embedding.

* A Go slice is a `List`; a nil slice and an empty slice are both `[]`
  (the provider only ever looks at `len`).
* A nullable pointer is an `Option`: `none` is the nil pointer.
* Everything outside the process (environment, JSON encoder and decoder,
  HTTP client) is a field of `World`; the theorems quantify over every
  `World`.
* Side effects are recorded in order in a list of `Event`s, and a call ends
  in an `Outcome`: it either returns or dies with a run-time panic.
-/

set_option autoImplicit false

namespace Walker

/-! ## Data model -/

/-- Modelled from the spec: the `Message` record of the providers package,
declared in a sibling file: a role and a content, both text. -/
structure Message where
  Role : String
  Content : String
deriving DecidableEq, Repr

/-- A Go `float64`, kept as its bit pattern. The provider only copies it. -/
structure Float64 where
  bits : Nat
deriving DecidableEq, Repr

/-- Modelled from the spec: `config.AIPrompt`, declared in the config
package; the five fields the provider reads. -/
structure AIPrompt where
  Model : String
  MaxTokens : Int
  Temperature : Float64
  Label : String
  SingleModuleOnly : Bool
deriving DecidableEq, Repr

/-- The Go zero value of `config.AIPrompt`. -/
def AIPrompt.zero : AIPrompt :=
  { Model := "", MaxTokens := 0, Temperature := ⟨0⟩, Label := "", SingleModuleOnly := false }

/-- Modelled from the spec: the per-provider block of `config.AI`; the
provider reads its `Prompts` only. -/
structure AIProviderConfig where
  Prompts : List AIPrompt
deriving DecidableEq, Repr

/-- Modelled from the spec: `config.AI`, of which the provider reads
`Grok.Prompts`. -/
structure AI where
  Grok : AIProviderConfig
deriving DecidableEq, Repr

/-- A Go function value `func(args ...interface{})`, kept as a handle: the
provider stores it and hands it on, it never calls it. -/
structure Callback where
  handle : Nat
deriving DecidableEq, Repr

/-- Modelled from the spec: `util.MatchingType`, declared in the util
package. The provider uses the constant `util.Fuzzy` only. -/
inductive MatchingType where
  | Fuzzy
  | other (tag : Nat)
deriving DecidableEq, Repr

/-- An element of `SpecialFuncArgs []interface{}`: the provider stores a
string and a pointer to a prompt variable (an address in the heap of
prompt variables). -/
inductive Arg where
  | str (s : String)
  | promptRef (addr : Nat)
deriving DecidableEq, Repr

/-- Modelled from the spec: `util.Entry`, declared in the util package; the
eight fields `SetupData` sets. -/
structure Entry where
  Label : String
  Sub : String
  Exec : String
  RecalculateScore : Bool
  Matching : MatchingType
  SpecialFunc : Callback
  SpecialFuncArgs : List Arg
  SingleModuleOnly : Bool
deriving DecidableEq, Repr

def GROK_API_URL : String := "https://api.x.ai/v1/chat/completions"

def GROK_API_KEY : String := "GROK_API_KEY"

structure GrokProvider where
  config : AI
  key : String
  specialFunc : Callback
deriving DecidableEq, Repr

structure GrokRequest where
  Model : String
  MaxTokens : Int
  Temperature : Float64
  Messages : List Message
deriving DecidableEq, Repr

/-- The anonymous struct `GrokResponse.Choices[i].Message`. -/
structure ChoiceMessage where
  Role : String
  Content : String
  ReasoningContent : String
  Refusal : String
deriving DecidableEq, Repr

/-- The anonymous element struct of `GrokResponse.Choices`. -/
structure Choice where
  Index : Int
  FinishSection : String
  Message : ChoiceMessage
deriving DecidableEq, Repr

structure PromptTokensDetails where
  TextTokens : Int
  AudioTokens : Int
  ImageTokens : Int
  CachedTokens : Int
deriving DecidableEq, Repr

structure CompletionTokensDetails where
  ReasoningTokens : Int
  AudioTokens : Int
  AcceptedPredictionTokens : Int
  RejectedPredictionTokens : Int
deriving DecidableEq, Repr

structure Usage where
  PromptTokens : Int
  CompletionTokens : Int
  TotalTokens : Int
  PromptTokensDetails : PromptTokensDetails
  CompletionTokensDetails : CompletionTokensDetails
deriving DecidableEq, Repr

structure GrokResponse where
  Id : String
  Model : String
  Object : String
  SystemFingerprint : String
  Created : Int
  Choices : List Choice
  Usage : Usage
deriving DecidableEq, Repr

/-! ## The world outside the process -/

/-- An `*http.Request` as the provider builds it. -/
structure HttpRequest where
  Method : String
  URL : String
  Body : String
  Header : List (String × String)
deriving DecidableEq, Repr

/-- An `*http.Response`: the two parts the provider reads. -/
structure HttpResponse where
  StatusCode : Int
  Body : String
deriving DecidableEq, Repr

/-- The behaviour of everything the provider calls outside the repository.

* `environ name` is the process environment (`none`: the variable is unset);
* `jsonMarshal` is `json.Marshal` on a `GrokRequest`;
* `clientDo` is `http.DefaultClient.Do`: the pair `(resp, err)` it returns,
  `resp = none` for a nil response and `err = none` for a nil error;
* `jsonDecode` is `json.NewDecoder(body).Decode` into a `GrokResponse`. -/
structure World where
  environ : String → Option String
  jsonMarshal : GrokRequest → Except String String
  clientDo : HttpRequest → Option HttpResponse × Option String
  jsonDecode : String → Except String GrokResponse

/-- `os.Getenv`: the value of the variable, `""` when it is unset. -/
def World.Getenv (w : World) (name : String) : String :=
  (w.environ name).getD ""

/-- `http.StatusOK`. -/
def StatusOK : Int := 200

/-- What a call leaves behind, in order. -/
inductive Event where
  | logPrintln (msg : String)
  | logPanicln (msg : String)
  | slogErrorErr (msg : String) (err : String)
  | slogErrorInt (msg : String) (n : Int)
  | splice (position nRemovals : Nat) (additions : List Message)
  | marshal (req : GrokRequest)
  | httpDo (request : HttpRequest)
  | decode (body : String)
  | bodyClose
deriving DecidableEq, Repr

def Event.isSplice : Event → Bool
  | .splice _ _ _ => true
  | _ => false

def Event.isDecode : Event → Bool
  | .decode _ => true
  | _ => false

/-- How a call ends: it returns to its caller, or a run-time panic unwinds
the goroutine. -/
inductive Outcome where
  | returned
  | panicked (msg : String)
deriving DecidableEq, Repr

def nilDeref : String := "invalid memory address or nil pointer dereference"

/-! ## NewGrokProvider -/

/-- The result of `NewGrokProvider`: the `Provider` interface value
(`none`: nil) and what was logged. -/
structure NewResult where
  provider : Option GrokProvider
  log : List Event
deriving DecidableEq, Repr

def NewGrokProvider (w : World) (config : AI) (specialFunc : Callback) : NewResult :=
  let key := w.Getenv GROK_API_KEY
  if key == "" then
    { provider := none, log := [Event.logPrintln "grok: no api key set"] }
  else
    { provider := some { config := config, key := w.Getenv GROK_API_KEY, specialFunc := specialFunc },
      log := [] }

/-! ## SetupData -/

/-- The scope of the variable `v` of `for _, v := range ...`. From Go 1.22 on
(the `go` line of the module's `go.mod`) every iteration has a variable of
its own; before, one variable serves the whole loop. -/
inductive LoopVarScope where
  | perIteration
  | perLoop
deriving DecidableEq, Repr

/-- The state of the loop of `SetupData`: the entries so far and the heap of
prompt variables whose address was taken (an address is an index). -/
structure SetupState where
  entries : List Entry
  heap : List AIPrompt
deriving DecidableEq, Repr

/-- The `util.Entry` literal of the loop body, for the loop variable `v`
living at `addr`. -/
def SetupData.entry (p : GrokProvider) (v : AIPrompt) (addr : Nat) : Entry :=
  { Label := v.Label
    Sub := "Grok"
    Exec := ""
    RecalculateScore := true
    Matching := MatchingType.Fuzzy
    SpecialFunc := p.specialFunc
    SpecialFuncArgs := [Arg.str "grok", Arg.promptRef addr]
    SingleModuleOnly := v.SingleModuleOnly }

/-- One iteration with a fresh variable `v`, initialised to the element. -/
def SetupData.stepFresh (p : GrokProvider) (st : SetupState) (elem : AIPrompt) : SetupState :=
  let addr := st.heap.length
  { entries := st.entries ++ [SetupData.entry p elem addr], heap := st.heap ++ [elem] }

/-- One iteration with the one variable `v` at `addr`, assigned the element. -/
def SetupData.stepShared (p : GrokProvider) (addr : Nat) (st : SetupState) (elem : AIPrompt) :
    SetupState :=
  { entries := st.entries ++ [SetupData.entry p elem addr], heap := st.heap.set addr elem }

structure SetupResult where
  entries : List Entry
  heap : List AIPrompt
  log : List Event
deriving DecidableEq, Repr

def SetupData (scope : LoopVarScope) (p : GrokProvider) (heap : List AIPrompt) : SetupResult :=
  let st : SetupState :=
    match scope with
    | .perIteration =>
      p.config.Grok.Prompts.foldl (SetupData.stepFresh p) { entries := [], heap := heap }
    | .perLoop =>
      p.config.Grok.Prompts.foldl (SetupData.stepShared p heap.length)
        { entries := [], heap := heap ++ [AIPrompt.zero] }
  let log :=
    if p.config.Grok.Prompts.length == 0 then [Event.logPrintln "grok: no prompts set."] else []
  { entries := st.entries, heap := st.heap, log := log }

/-- The prompt an entry's callback arguments point to: the second argument,
read through the heap. -/
def Entry.boundPrompt (e : Entry) (heap : List AIPrompt) : Option AIPrompt :=
  match e.SpecialFuncArgs with
  | [Arg.str _, Arg.promptRef addr] => heap[addr]?
  | _ => none

/-! ## Query -/

/-- `gioutil.ListModel.Splice(position, nRemovals, additions...)`: removes
`nRemovals` items at `position` and puts `additions` in their place. -/
def Splice (items : List Message) (position nRemovals : Nat) (additions : List Message) :
    List Message :=
  items.take position ++ additions ++ items.drop (position + nRemovals)

/-- What `Query` leaves behind: the caller's history variable
(`*currentMessages`; `none` when the pointer is nil), the display sink, the
events in order and how the call ended. -/
structure QueryResult where
  history : Option (List Message)
  items : List Message
  trace : List Event
  outcome : Outcome
deriving DecidableEq, Repr

/-- The working transcript of lines 107-118: the caller's history when the
pointer is non-nil and the slice non-empty, else empty; then the user
message. Appending may write into spare capacity of the caller's backing
array, which is not visible through the caller's slice header. -/
def Query.messages (query : String) (currentMessages : Option (List Message)) : List Message :=
  let queryMsg : Message := { Role := "user", Content := query }
  let messages : List Message := []
  let messages :=
    match currentMessages with
    | some cur => if cur.length > 0 then cur else messages
    | none => messages
  messages ++ [queryMsg]

/-- The `GrokRequest` literal of lines 122-127. -/
def Query.req (currentPrompt : AIPrompt) (messages : List Message) : GrokRequest :=
  { Model := currentPrompt.Model
    MaxTokens := currentPrompt.MaxTokens
    Temperature := currentPrompt.Temperature
    Messages := messages }

/-- Lines 134-139: `http.NewRequest` with the two headers set. For the
constant method and URL `http.NewRequest` returns no error. -/
def Query.request (p : GrokProvider) (b : String) : HttpRequest :=
  { Method := "POST"
    URL := GROK_API_URL
    Body := b
    Header := [("Authorization", "Bearer " ++ p.key), ("Content-Type", "application/json")] }

/-- The loop of lines 161-168. -/
def Query.responseMessages (grokResp : GrokResponse) : List Message :=
  grokResp.Choices.foldl
    (fun responseMessages v =>
      responseMessages ++ [{ Role := "assistant", Content := v.Message.Content }])
    []

def Query (w : World) (p : GrokProvider) (query : String)
    (currentMessages : Option (List Message)) (currentPrompt : Option AIPrompt)
    (items : List Message) : QueryResult :=
  let messages := Query.messages query currentMessages
  let tr := [Event.splice 0 items.length messages]
  let items := Splice items 0 items.length messages
  match currentPrompt with
  | none =>
    { history := currentMessages, items := items, trace := tr, outcome := .panicked nilDeref }
  | some currentPrompt =>
    let req := Query.req currentPrompt messages
    let tr := tr ++ [Event.marshal req]
    match w.jsonMarshal req with
    | .error err =>
      { history := currentMessages, items := items, trace := tr ++ [Event.logPanicln err],
        outcome := .panicked err }
    | .ok b =>
      let request := Query.request p b
      let tr := tr ++ [Event.httpDo request]
      let (resp, err) := w.clientDo request
      let tr :=
        match err with
        | some err => tr ++ [Event.slogErrorErr "Error making request: %v" err]
        | none => tr
      match resp with
      | none =>
        -- `defer resp.Body.Close()` evaluates `resp.Body` on a nil `resp`
        { history := currentMessages, items := items, trace := tr, outcome := .panicked nilDeref }
      | some resp =>
        if resp.StatusCode != StatusOK then
          { history := currentMessages, items := items,
            trace := tr ++ [Event.slogErrorInt "Grok API returned unexpected status code %d"
                              resp.StatusCode,
                            Event.bodyClose],
            outcome := .returned }
        else
          let tr := tr ++ [Event.decode resp.Body]
          match w.jsonDecode resp.Body with
          | .error err =>
            { history := currentMessages, items := items,
              trace := tr ++ [Event.slogErrorErr "Error decoding response: %v" err,
                              Event.bodyClose],
              outcome := .returned }
          | .ok grokResp =>
            let responseMessages := Query.responseMessages grokResp
            let messages := messages ++ responseMessages
            match currentMessages with
            | none =>
              -- `*currentMessages = messages` writes through a nil pointer
              { history := none, items := items, trace := tr ++ [Event.bodyClose],
                outcome := .panicked nilDeref }
            | some _ =>
              { history := some messages, items := items, trace := tr ++ [Event.bodyClose],
                outcome := .returned }

/-! ## Sample values -/

/-- A world that answers every call the same way. -/
def World.const (env : Option String) (marshalled : Except String String)
    (answer : Option HttpResponse × Option String) (decoded : Except String GrokResponse) :
    World :=
  { environ := fun _ => env
    jsonMarshal := fun _ => marshalled
    clientDo := fun _ => answer
    jsonDecode := fun _ => decoded }

def Message.user (content : String) : Message := { Role := "user", Content := content }

def Message.assistant (content : String) : Message := { Role := "assistant", Content := content }

def sampleUsage : Usage :=
  { PromptTokens := 3, CompletionTokens := 2, TotalTokens := 5
    PromptTokensDetails := ⟨3, 0, 0, 0⟩
    CompletionTokensDetails := ⟨1, 0, 0, 0⟩ }

/-- A decoded response with one choice per given content; the other fields of
each choice's message hold text of their own. -/
def sampleResponse (contents : List String) : GrokResponse :=
  { Id := "r1", Model := "grok-3", Object := "chat.completion", SystemFingerprint := "fp"
    Created := 1
    Choices := contents.map fun c =>
      { Index := 0, FinishSection := "stop"
        Message := { Role := "system", Content := c, ReasoningContent := "thinking",
                     Refusal := "no" } }
    Usage := sampleUsage }

def samplePromptA : AIPrompt :=
  { Model := "grok-3", MaxTokens := 100, Temperature := ⟨1⟩, Label := "A",
    SingleModuleOnly := false }

def samplePromptB : AIPrompt :=
  { Model := "grok-3-mini", MaxTokens := 50, Temperature := ⟨2⟩, Label := "B",
    SingleModuleOnly := true }

def sampleProvider : GrokProvider :=
  { config := { Grok := { Prompts := [samplePromptA, samplePromptB] } }
    key := "k"
    specialFunc := ⟨7⟩ }

/-- A world whose server answers with the given status and a body that
decodes to the given choices. -/
def World.answering (status : Int) (contents : List String) : World :=
  World.const (some "k") (.ok "body") (some { StatusCode := status, Body := "json" }, none)
    (.ok (sampleResponse contents))

/-- A world whose server answers 200 with a body that is not JSON. -/
def World.malformed : World :=
  World.const (some "k") (.ok "body") (some { StatusCode := 200, Body := "<html>" }, none)
    (.error "invalid character looking for beginning of value")

/-- A world whose transport fails: no response, an error. -/
def World.unreachable : World :=
  World.const (some "k") (.ok "body") (none, some "dial tcp: connection refused")
    (.ok (sampleResponse []))

/-! ## Lemmas -/

theorem Splice_whole (items additions : List Message) :
    Splice items 0 items.length additions = additions := by
  simp [Splice]

theorem Query.messages_eq (query : String) (currentMessages : Option (List Message)) :
    Query.messages query currentMessages
      = currentMessages.getD [] ++ [Message.user query] := by
  cases currentMessages with
  | none => simp [Query.messages, Message.user]
  | some cur =>
    cases cur with
    | nil => simp [Query.messages, Message.user]
    | cons a l => simp [Query.messages, Message.user]

theorem Query.responseMessages_foldl (choices : List Choice) (acc : List Message) :
    choices.foldl
        (fun responseMessages v =>
          responseMessages ++ [({ Role := "assistant", Content := v.Message.Content } : Message)])
        acc
      = acc ++ choices.map (fun v => Message.assistant v.Message.Content) := by
  induction choices generalizing acc with
  | nil => simp
  | cons v vs ih => simp [ih, Message.assistant]

theorem Query.responseMessages_eq (grokResp : GrokResponse) :
    Query.responseMessages grokResp
      = grokResp.Choices.map (fun v => Message.assistant v.Message.Content) := by
  simp [Query.responseMessages, Query.responseMessages_foldl]

/-! ## Query: the caller's history -/

/-- C1. For every query, every non-nil history `h` and every response with
status 200 whose body decodes, `Query` returns and leaves the caller's history
equal to `h`, then the user message, then one assistant message per choice in
choice order, each carrying that choice's `message.content`; exactly
`1 + n` messages are appended for `n` choices. -/
theorem Query_success_history (w : World) (p : GrokProvider) (query : String)
    (h : List Message) (c : AIPrompt) (items : List Message) (b : String)
    (resp : HttpResponse) (err : Option String) (grokResp : GrokResponse)
    (hmarshal : w.jsonMarshal (Query.req c (h ++ [Message.user query])) = .ok b)
    (hdo : w.clientDo (Query.request p b) = (some resp, err))
    (hstatus : resp.StatusCode = 200)
    (hdecode : w.jsonDecode resp.Body = .ok grokResp) :
    (Query w p query (some h) (some c) items).outcome = Outcome.returned
    ∧ (Query w p query (some h) (some c) items).history
        = some (h ++ [Message.user query]
                  ++ grokResp.Choices.map (fun v => Message.assistant v.Message.Content))
    ∧ ((Query w p query (some h) (some c) items).history.getD []).length
        = h.length + 1 + grokResp.Choices.length := by
  have hm : Query.messages query (some h) = h ++ [Message.user query] := by
    simpa using Query.messages_eq query (some h)
  have hs : (resp.StatusCode != StatusOK) = false := by
    simp [hstatus, StatusOK]
  simp only [Query, hm, hmarshal, hdo, hs, hdecode, Query.responseMessages_eq]
  cases err <;> simp <;> omega

theorem Query_success_history_witness :
    (Query (World.answering 200 ["x", "y"]) sampleProvider "q"
        (some [Message.user "a", Message.assistant "b"]) (some samplePromptA) []).history
      = some [Message.user "a", Message.assistant "b", Message.user "q",
              Message.assistant "x", Message.assistant "y"] := by
  have key := (Query_success_history (World.answering 200 ["x", "y"]) sampleProvider "q"
    [Message.user "a", Message.assistant "b"] samplePromptA [] "body"
    { StatusCode := 200, Body := "json" } none (sampleResponse ["x", "y"])
    rfl rfl rfl rfl).2.1
  simpa [sampleResponse] using key

/-- C2, as stated, fails: against a server answering 500 the call returns and
the caller's history is what it was, without the user message. -/
theorem Query_failure_history_counterexample :
    (({ StatusCode := 500, Body := "json" } : HttpResponse).StatusCode ≠ StatusOK)
    ∧ (Query (World.answering 500 []) sampleProvider "q" (some [Message.user "a"])
        (some samplePromptA) []).outcome = Outcome.returned
    ∧ (Query (World.answering 500 []) sampleProvider "q" (some [Message.user "a"])
        (some samplePromptA) []).history = some [Message.user "a"]
    ∧ (Query (World.answering 500 []) sampleProvider "q" (some [Message.user "a"])
        (some samplePromptA) []).history ≠ some ([Message.user "a"] ++ [Message.user "q"]) := by
  decide

/-- C2, amended. For every query and every non-nil history `h`, when the
response status is not 200 or the body fails to decode, `Query` returns and
the caller's history is `h`, unchanged: the user message is in the display
sink (which holds `h` followed by the user message) and not in the history. -/
theorem Query_failure_history (w : World) (p : GrokProvider) (query : String)
    (h : List Message) (c : AIPrompt) (items : List Message) (b : String)
    (resp : HttpResponse) (err : Option String)
    (hmarshal : w.jsonMarshal (Query.req c (h ++ [Message.user query])) = .ok b)
    (hdo : w.clientDo (Query.request p b) = (some resp, err))
    (hfail : resp.StatusCode ≠ StatusOK ∨ ∃ e, w.jsonDecode resp.Body = .error e) :
    (Query w p query (some h) (some c) items).outcome = Outcome.returned
    ∧ (Query w p query (some h) (some c) items).history = some h
    ∧ (Query w p query (some h) (some c) items).items = h ++ [Message.user query] := by
  have hm : Query.messages query (some h) = h ++ [Message.user query] := by
    simpa using Query.messages_eq query (some h)
  simp only [Query, hm, hmarshal, hdo, Splice_whole]
  by_cases hs : resp.StatusCode = StatusOK
  · rcases hfail with hne | ⟨e, he⟩
    · exact absurd hs hne
    · simp [hs, he]
  · simp [hs]

theorem Query_failure_history_witness :
    (Query World.malformed sampleProvider "q" (some [Message.user "a"])
        (some samplePromptA) []).history = some [Message.user "a"]
    ∧ (Query World.malformed sampleProvider "q" (some [Message.user "a"])
        (some samplePromptA) []).items = [Message.user "a", Message.user "q"] := by
  have key := Query_failure_history World.malformed sampleProvider "q" [Message.user "a"]
    samplePromptA [] "body" { StatusCode := 200, Body := "<html>" } none rfl rfl
    (Or.inr ⟨"invalid character looking for beginning of value", rfl⟩)
  exact ⟨key.2.1, by simpa using key.2.2⟩

/-! ## Query: transport failure and the nil history -/

/-- C3, on the code. When the client returns an error and no response, `Query`
logs the failure and goes on to `defer resp.Body.Close()` on the nil response:
the call ends in a nil-pointer panic instead of returning. No status is read,
no body decoded, and the history is left as it was. -/
theorem Query_transport_failure (w : World) (p : GrokProvider) (query : String)
    (currentMessages : Option (List Message)) (c : AIPrompt) (items : List Message)
    (b : String) (e : String)
    (hmarshal :
      w.jsonMarshal (Query.req c (currentMessages.getD [] ++ [Message.user query])) = .ok b)
    (hdo : w.clientDo (Query.request p b) = (none, some e)) :
    (Query w p query currentMessages (some c) items).outcome = Outcome.panicked nilDeref
    ∧ (Query w p query currentMessages (some c) items).trace
        = [Event.splice 0 items.length (currentMessages.getD [] ++ [Message.user query]),
           Event.marshal (Query.req c (currentMessages.getD [] ++ [Message.user query])),
           Event.httpDo (Query.request p b),
           Event.slogErrorErr "Error making request: %v" e]
    ∧ (Query w p query currentMessages (some c) items).history = currentMessages := by
  simp [Query, Query.messages_eq, hmarshal, hdo]

theorem Query_transport_failure_witness :
    (Query World.unreachable sampleProvider "q" (some [Message.user "a"])
        (some samplePromptA) []).outcome = Outcome.panicked nilDeref :=
  (Query_transport_failure World.unreachable sampleProvider "q" (some [Message.user "a"])
    samplePromptA [] "body" "dial tcp: connection refused" rfl rfl).1

/-- C8, on the code. With a nil history pointer, a response of status 200 and
a body that decodes, `Query` reaches `*currentMessages = messages` and ends in
a nil-pointer panic; nothing is written back. -/
theorem Query_nil_history (w : World) (p : GrokProvider) (query : String)
    (c : AIPrompt) (items : List Message) (b : String)
    (resp : HttpResponse) (err : Option String) (grokResp : GrokResponse)
    (hmarshal : w.jsonMarshal (Query.req c [Message.user query]) = .ok b)
    (hdo : w.clientDo (Query.request p b) = (some resp, err))
    (hstatus : resp.StatusCode = 200)
    (hdecode : w.jsonDecode resp.Body = .ok grokResp) :
    (Query w p query none (some c) items).outcome = Outcome.panicked nilDeref
    ∧ (Query w p query none (some c) items).history = none := by
  have hm : Query.messages query none = [Message.user query] := by
    simpa using Query.messages_eq query none
  have hs : (resp.StatusCode != StatusOK) = false := by
    simp [hstatus, StatusOK]
  simp [Query, hm, hmarshal, hdo, hs, hdecode]

theorem Query_nil_history_witness :
    (Query (World.answering 200 []) sampleProvider "q" none (some samplePromptA) []).outcome
      = Outcome.panicked nilDeref :=
  (Query_nil_history (World.answering 200 []) sampleProvider "q" samplePromptA [] "body"
    { StatusCode := 200, Body := "json" } none (sampleResponse []) rfl rfl rfl rfl).1

/-! ## Query: the display sink and the request body -/

/-- C4. For every query, every history (nil, empty or not), every prompt
pointer and every prior content of the sink, in every world, the sink after
`Query` holds exactly the history followed by the user message, and the
splice that sets it is the first event of the call: whatever follows (the
HTTP request among it) comes after, and contains no further splice. -/
theorem Query_sink (w : World) (p : GrokProvider) (query : String)
    (currentMessages : Option (List Message)) (currentPrompt : Option AIPrompt)
    (items : List Message) :
    (Query w p query currentMessages currentPrompt items).items
        = currentMessages.getD [] ++ [Message.user query]
    ∧ Splice items 0 items.length (currentMessages.getD [] ++ [Message.user query])
        = currentMessages.getD [] ++ [Message.user query]
    ∧ ∃ rest, (Query w p query currentMessages currentPrompt items).trace
        = Event.splice 0 items.length (currentMessages.getD [] ++ [Message.user query]) :: rest
      ∧ rest.all (fun e => !e.isSplice) = true := by
  refine ⟨?_, Splice_whole _ _, ?_⟩
  · simp only [Query, Query.messages_eq, Splice_whole]
    repeat' split
    all_goals rfl
  · simp only [Query, Query.messages_eq, Splice_whole]
    repeat' split
    all_goals simp [Event.isSplice]

/-- C9. For every query, history and prompt, in every world, the second event
of `Query` is the encoding of a request body whose model, max tokens and
temperature are the prompt's and whose messages are the history followed by
the user message. That list is not empty, ends in the user message and is the
list the sink was set to; and every HTTP request of the call carries the
encoding of that body, with the bearer key and the JSON content type. -/
theorem Query_request_body (w : World) (p : GrokProvider) (query : String)
    (currentMessages : Option (List Message)) (c : AIPrompt) (items : List Message) :
    ∃ rest, (Query w p query currentMessages (some c) items).trace
        = Event.splice 0 items.length (currentMessages.getD [] ++ [Message.user query])
          :: Event.marshal
              { Model := c.Model, MaxTokens := c.MaxTokens, Temperature := c.Temperature,
                Messages := currentMessages.getD [] ++ [Message.user query] }
          :: rest
      ∧ (∀ request, Event.httpDo request ∈ rest →
          w.jsonMarshal
              { Model := c.Model, MaxTokens := c.MaxTokens, Temperature := c.Temperature,
                Messages := currentMessages.getD [] ++ [Message.user query] }
            = .ok request.Body
          ∧ request = Query.request p request.Body)
      ∧ currentMessages.getD [] ++ [Message.user query] ≠ []
      ∧ (currentMessages.getD [] ++ [Message.user query]).getLast? = some (Message.user query)
      ∧ (Query w p query currentMessages (some c) items).items
          = currentMessages.getD [] ++ [Message.user query] := by
  simp only [Query, Query.messages_eq, Splice_whole, Query.req]
  repeat' split
  all_goals simp_all [Query.request]

/-! ## Query: the status gate -/

/-- C5, as stated, fails: 201 is a success status, yet against a server
answering 201 with a body that decodes to one choice the call logs the status
and returns with the history unchanged and no decode. -/
theorem Query_status_gate_counterexample :
    ((200 : Int) ≤ 201 ∧ (201 : Int) < 300)
    ∧ (Query (World.answering 201 ["x"]) sampleProvider "q" (some [Message.user "a"])
        (some samplePromptA) []).trace
      = [Event.splice 0 0 [Message.user "a", Message.user "q"],
         Event.marshal (Query.req samplePromptA [Message.user "a", Message.user "q"]),
         Event.httpDo (Query.request sampleProvider "body"),
         Event.slogErrorInt "Grok API returned unexpected status code %d" 201,
         Event.bodyClose]
    ∧ (Query (World.answering 201 ["x"]) sampleProvider "q" (some [Message.user "a"])
        (some samplePromptA) []).history = some [Message.user "a"]
    ∧ (Query (World.answering 201 ["x"]) sampleProvider "q" (some [Message.user "a"])
        (some samplePromptA) []).history
      ≠ some [Message.user "a", Message.user "q", Message.assistant "x"] := by
  decide

/-- C5, amended. For every history pointer (nil or not), `Query` aborts on the
response status exactly when the status is not 200: for every status other
than 200 (the other 2xx among them) it logs the status and returns without
decoding the body, the history unchanged; for status 200 it goes on to decode
the body and, when the body decodes and the history pointer is not nil, it
returns with the user message and the assistant messages appended to the
history. -/
theorem Query_status_gate (w : World) (p : GrokProvider) (query : String)
    (currentMessages : Option (List Message)) (c : AIPrompt) (items : List Message)
    (b : String) (resp : HttpResponse) (err : Option String)
    (hmarshal :
      w.jsonMarshal (Query.req c (currentMessages.getD [] ++ [Message.user query])) = .ok b)
    (hdo : w.clientDo (Query.request p b) = (some resp, err)) :
    (resp.StatusCode ≠ 200 →
        (Query w p query currentMessages (some c) items).outcome = Outcome.returned
        ∧ Event.slogErrorInt "Grok API returned unexpected status code %d" resp.StatusCode
            ∈ (Query w p query currentMessages (some c) items).trace
        ∧ (Query w p query currentMessages (some c) items).trace.any Event.isDecode = false
        ∧ (Query w p query currentMessages (some c) items).history = currentMessages)
    ∧ (resp.StatusCode = 200 →
        Event.decode resp.Body ∈ (Query w p query currentMessages (some c) items).trace
        ∧ ∀ grokResp h, w.jsonDecode resp.Body = .ok grokResp → currentMessages = some h →
            (Query w p query currentMessages (some c) items).outcome = Outcome.returned
            ∧ (Query w p query currentMessages (some c) items).history
              = some (h ++ [Message.user query]
                        ++ grokResp.Choices.map (fun v => Message.assistant v.Message.Content))) := by
  simp only [Query, Query.messages_eq, hmarshal, hdo, Splice_whole, Query.responseMessages_eq]
  constructor
  · intro hs
    have hs2 : (resp.StatusCode != StatusOK) = true := by simpa [StatusOK] using hs
    cases err <;> simp [hs2, Event.isDecode]
  · intro hs
    have hs2 : (resp.StatusCode != StatusOK) = false := by simp [hs, StatusOK]
    refine ⟨?_, ?_⟩
    · cases err <;> cases hj : w.jsonDecode resp.Body <;> cases currentMessages <;> simp [hs2]
    · intro grokResp h hj hcur
      subst hcur
      cases err <;> simp [hs2, hj]

theorem Query_status_gate_witness :
    (Query (World.answering 204 ["x"]) sampleProvider "q" none
        (some samplePromptA) []).outcome = Outcome.returned
    ∧ (Query (World.answering 204 ["x"]) sampleProvider "q" none
        (some samplePromptA) []).history = none
    ∧ (Query (World.answering 200 ["x"]) sampleProvider "q" (some [])
        (some samplePromptA) []).history = some [Message.user "q", Message.assistant "x"] := by
  have k1 := (Query_status_gate (World.answering 204 ["x"]) sampleProvider "q" none
    samplePromptA [] "body" { StatusCode := 204, Body := "json" } none rfl rfl).1 (by decide)
  have k2 := (Query_status_gate (World.answering 200 ["x"]) sampleProvider "q" (some [])
    samplePromptA [] "body" { StatusCode := 200, Body := "json" } none rfl rfl).2 rfl
  exact ⟨k1.1, k1.2.2.2,
    by simpa [sampleResponse] using (k2.2 (sampleResponse ["x"]) [] rfl rfl).2⟩

/-! ## SetupData -/

theorem SetupData.foldl_stepFresh_heap (p : GrokProvider) (ps : List AIPrompt)
    (st : SetupState) :
    (ps.foldl (SetupData.stepFresh p) st).heap = st.heap ++ ps := by
  induction ps generalizing st with
  | nil => simp
  | cons v vs ih => simp [ih, SetupData.stepFresh]

theorem SetupData.foldl_stepFresh_length (p : GrokProvider) (ps : List AIPrompt)
    (st : SetupState) :
    (ps.foldl (SetupData.stepFresh p) st).entries.length = st.entries.length + ps.length := by
  induction ps generalizing st with
  | nil => simp
  | cons v vs ih => simp [ih, SetupData.stepFresh]; omega

/-- The fields of an entry other than its callback arguments. -/
theorem SetupData.foldl_stepFresh_fields (p : GrokProvider) (ps : List AIPrompt)
    (st : SetupState) :
    (ps.foldl (SetupData.stepFresh p) st).entries.map
        (fun e => (e.Label, e.Sub, e.Matching, e.RecalculateScore, e.Exec, e.SingleModuleOnly,
                   e.SpecialFunc))
      = st.entries.map
          (fun e => (e.Label, e.Sub, e.Matching, e.RecalculateScore, e.Exec, e.SingleModuleOnly,
                     e.SpecialFunc))
        ++ ps.map (fun v => (v.Label, "Grok", MatchingType.Fuzzy, true, "", v.SingleModuleOnly,
                             p.specialFunc)) := by
  induction ps generalizing st with
  | nil => simp
  | cons v vs ih => simp [ih, SetupData.stepFresh, SetupData.entry]

theorem SetupData.foldl_stepShared_fields (p : GrokProvider) (addr : Nat) (ps : List AIPrompt)
    (st : SetupState) :
    (ps.foldl (SetupData.stepShared p addr) st).entries.map
        (fun e => (e.Label, e.Sub, e.Matching, e.RecalculateScore, e.Exec, e.SingleModuleOnly,
                   e.SpecialFunc))
      = st.entries.map
          (fun e => (e.Label, e.Sub, e.Matching, e.RecalculateScore, e.Exec, e.SingleModuleOnly,
                     e.SpecialFunc))
        ++ ps.map (fun v => (v.Label, "Grok", MatchingType.Fuzzy, true, "", v.SingleModuleOnly,
                             p.specialFunc)) := by
  induction ps generalizing st with
  | nil => simp
  | cons v vs ih => simp [ih, SetupData.stepShared, SetupData.entry]

/-- With a variable per iteration, the `i`-th entry points at address
`base + i`. -/
theorem SetupData.foldl_stepFresh_entry (p : GrokProvider) (ps : List AIPrompt)
    (st : SetupState) (i : Nat) :
    (ps.foldl (SetupData.stepFresh p) st).entries[st.entries.length + i]?
      = ps[i]?.map (fun v => SetupData.entry p v (st.heap.length + i)) := by
  induction ps using List.reverseRecOn generalizing i with
  | nil => simp
  | append_singleton l a ih =>
    have hlen := SetupData.foldl_stepFresh_length p l st
    have hheap := SetupData.foldl_stepFresh_heap p l st
    rw [List.foldl_append]
    simp only [List.foldl_cons, List.foldl_nil, SetupData.stepFresh, hheap, List.length_append]
    rcases Nat.lt_trichotomy i l.length with hlt | heq | hgt
    · rw [List.getElem?_append_left (by omega), ih i, List.getElem?_append_left hlt]
    · subst heq
      rw [List.getElem?_append_right (by omega), List.getElem?_append_right (by omega)]
      simp [hlen]
    · rw [List.getElem?_append_right (by omega), List.getElem?_append_right (by omega)]
      have h1 : st.entries.length + i - (List.foldl (SetupData.stepFresh p) st l).entries.length
          = (i - l.length - 1) + 1 := by omega
      have h2 : i - l.length = (i - l.length - 1) + 1 := by omega
      rw [h1, h2]
      simp

/-- C6. For every configured prompt list, under either scoping of the loop
variable, `SetupData` returns one entry per prompt, in the order of the
prompts, the entry of a prompt carrying the prompt's label, the subtitle
`"Grok"`, fuzzy matching, score recalculation on, an empty `Exec`, the
prompt's `SingleModuleOnly` and the provider's callback. For the empty list
the catalog is empty, and the one diagnostic is logged in that case only. -/
theorem SetupData_catalog (scope : LoopVarScope) (p : GrokProvider) (heap : List AIPrompt) :
    (SetupData scope p heap).entries.map
        (fun e => (e.Label, e.Sub, e.Matching, e.RecalculateScore, e.Exec, e.SingleModuleOnly,
                   e.SpecialFunc))
      = p.config.Grok.Prompts.map
          (fun v => (v.Label, "Grok", MatchingType.Fuzzy, true, "", v.SingleModuleOnly,
                     p.specialFunc))
    ∧ (SetupData scope p heap).entries.length = p.config.Grok.Prompts.length
    ∧ (p.config.Grok.Prompts = [] →
        (SetupData scope p heap).entries = []
        ∧ (SetupData scope p heap).log = [Event.logPrintln "grok: no prompts set."])
    ∧ (p.config.Grok.Prompts ≠ [] → (SetupData scope p heap).log = []) := by
  have hfields : (SetupData scope p heap).entries.map
        (fun e => (e.Label, e.Sub, e.Matching, e.RecalculateScore, e.Exec, e.SingleModuleOnly,
                   e.SpecialFunc))
      = p.config.Grok.Prompts.map
          (fun v => (v.Label, "Grok", MatchingType.Fuzzy, true, "", v.SingleModuleOnly,
                     p.specialFunc)) := by
    cases scope
    · simpa [SetupData] using
        SetupData.foldl_stepFresh_fields p p.config.Grok.Prompts { entries := [], heap := heap }
    · simpa [SetupData] using
        SetupData.foldl_stepShared_fields p heap.length p.config.Grok.Prompts
          { entries := [], heap := heap ++ [AIPrompt.zero] }
  have hlen : (SetupData scope p heap).entries.length = p.config.Grok.Prompts.length := by
    simpa using congrArg List.length hfields
  refine ⟨hfields, hlen, ?_, ?_⟩
  · intro hnil
    refine ⟨?_, ?_⟩
    · apply List.eq_nil_of_length_eq_zero
      rw [hlen, hnil]
      rfl
    · simp [SetupData, hnil]
  · intro hne
    simp [SetupData, hne]

/-- C7, as stated, fails: nothing in the provider fixes the scoping of the loop
variable, and under the one-variable-per-loop scoping of Go before 1.22 the
two entries built from two different prompts carry the same pointer, which
after the loop refers to the last prompt: the first entry does not carry its
own prompt. -/
theorem SetupData_boundPrompt_counterexample :
    sampleProvider.config.Grok.Prompts = [samplePromptA, samplePromptB]
    ∧ samplePromptA ≠ samplePromptB
    ∧ (SetupData LoopVarScope.perLoop sampleProvider []).entries.map
          (fun e => e.SpecialFuncArgs)
        = [[Arg.str "grok", Arg.promptRef 0], [Arg.str "grok", Arg.promptRef 0]]
    ∧ (SetupData LoopVarScope.perLoop sampleProvider []).entries.map
          (fun e => e.boundPrompt (SetupData LoopVarScope.perLoop sampleProvider []).heap)
        = [some samplePromptB, some samplePromptB]
    ∧ (SetupData LoopVarScope.perLoop sampleProvider []).entries.map
          (fun e => e.boundPrompt (SetupData LoopVarScope.perLoop sampleProvider []).heap)
        ≠ [some samplePromptA, some samplePromptB] := by
  decide

/-- C7, amended. When the loop variable is scoped per iteration (Go 1.22 and
later), for every configured prompt list and all indices `i`, `j` below its
length, the callback arguments of the `i`-th entry are `"grok"` and a pointer
to a variable of its own (address `base + i`), which after `SetupData` holds
the `i`-th prompt; entries of different indices hold different pointers, and
entries built from different prompts point to different prompts. -/
theorem SetupData_boundPrompt (scope : LoopVarScope) (p : GrokProvider)
    (heap : List AIPrompt) (i j : Nat)
    (hscope : scope = LoopVarScope.perIteration)
    (hi : i < p.config.Grok.Prompts.length) (hj : j < p.config.Grok.Prompts.length) :
    ∃ ei ej,
      (SetupData scope p heap).entries[i]? = some ei
      ∧ (SetupData scope p heap).entries[j]? = some ej
      ∧ ei.SpecialFuncArgs = [Arg.str "grok", Arg.promptRef (heap.length + i)]
      ∧ ei.boundPrompt (SetupData scope p heap).heap = some p.config.Grok.Prompts[i]
      ∧ ej.boundPrompt (SetupData scope p heap).heap = some p.config.Grok.Prompts[j]
      ∧ (i ≠ j → ei.SpecialFuncArgs ≠ ej.SpecialFuncArgs)
      ∧ (p.config.Grok.Prompts[i] ≠ p.config.Grok.Prompts[j] →
          ei.boundPrompt (SetupData scope p heap).heap
            ≠ ej.boundPrompt (SetupData scope p heap).heap) := by
  subst hscope
  have hentry : ∀ k (hk : k < p.config.Grok.Prompts.length),
      (SetupData LoopVarScope.perIteration p heap).entries[k]?
        = some (SetupData.entry p p.config.Grok.Prompts[k] (heap.length + k)) := by
    intro k hk
    have := SetupData.foldl_stepFresh_entry p p.config.Grok.Prompts
      { entries := [], heap := heap } k
    simpa [SetupData, List.getElem?_eq_getElem hk] using this
  have hheap : (SetupData LoopVarScope.perIteration p heap).heap
      = heap ++ p.config.Grok.Prompts := by
    simpa [SetupData] using
      SetupData.foldl_stepFresh_heap p p.config.Grok.Prompts { entries := [], heap := heap }
  have hbound : ∀ k (hk : k < p.config.Grok.Prompts.length),
      (SetupData.entry p p.config.Grok.Prompts[k] (heap.length + k)).boundPrompt
          (SetupData LoopVarScope.perIteration p heap).heap
        = some p.config.Grok.Prompts[k] := by
    intro k hk
    simp [Entry.boundPrompt, SetupData.entry, hheap, List.getElem?_append_right,
      List.getElem?_eq_getElem hk]
  refine ⟨_, _, hentry i hi, hentry j hj, rfl, hbound i hi, hbound j hj, ?_, ?_⟩
  · intro hne
    simp [SetupData.entry, hne]
  · intro hne
    rw [hbound i hi, hbound j hj]
    simpa using hne

theorem SetupData_boundPrompt_witness :
    ∃ ei ej,
      (SetupData LoopVarScope.perIteration sampleProvider []).entries[0]? = some ei
      ∧ (SetupData LoopVarScope.perIteration sampleProvider []).entries[1]? = some ej
      ∧ ei.boundPrompt (SetupData LoopVarScope.perIteration sampleProvider []).heap
          = some samplePromptA
      ∧ ej.boundPrompt (SetupData LoopVarScope.perIteration sampleProvider []).heap
          = some samplePromptB := by
  obtain ⟨ei, ej, h1, h2, _, h4, h5, _, _⟩ :=
    SetupData_boundPrompt LoopVarScope.perIteration sampleProvider [] 0 1 rfl
      (by decide) (by decide)
  exact ⟨ei, ej, h1, h2, h4, h5⟩

/-! ## NewGrokProvider -/

/-- C10. `NewGrokProvider` yields no provider exactly when `GROK_API_KEY` is
unset or empty (and then logs its diagnostic); for every non-empty value `k`
it yields a provider with key `k` and the config and callback passed in. -/
theorem NewGrokProvider_spec (w : World) (config : AI) (specialFunc : Callback) :
    ((NewGrokProvider w config specialFunc).provider = none
        ↔ (w.environ GROK_API_KEY = none ∨ w.environ GROK_API_KEY = some ""))
    ∧ ((NewGrokProvider w config specialFunc).provider = none →
        (NewGrokProvider w config specialFunc).log = [Event.logPrintln "grok: no api key set"])
    ∧ (∀ k, k ≠ "" → w.environ GROK_API_KEY = some k →
        (NewGrokProvider w config specialFunc).provider
          = some { config := config, key := k, specialFunc := specialFunc }) := by
  cases hk : w.environ GROK_API_KEY with
  | none => simp [NewGrokProvider, World.Getenv, hk]
  | some k =>
    by_cases hempty : k = ""
    · simp only [NewGrokProvider, World.Getenv, hk, hempty]
      refine ⟨by simp, by simp, ?_⟩
      intro k1 hne heq
      exact absurd (Option.some.inj heq).symm hne
    · simp [NewGrokProvider, World.Getenv, hk, hempty]

end Walker
